import Mathlib

/-!
Verification of the git-mirror command-line layer (src/main.rs) and, where
the engine crate (`git_mirror`) is not part of the sources, of engine
behaviour modelled from the specification.

The CLI parses an `Opt` value, builds one of two providers (GitLab or
GitHub), converts `Opt` into `MirrorOptions`, runs `do_mirror`, and maps its
result to a process exit status.
-/

namespace GitMirror

/-- The `Providers` arg-enum from src/main.rs: exactly two variants. -/
inductive Providers
  | GitLab
  | GitHub
deriving DecidableEq, Repr

/-- The parsed command-line options (struct `Opt` in src/main.rs).
`PathBuf` fields are modelled as `String`, `usize` and `u8` as `Nat`. -/
structure Opt where
  provider : Providers
  url : String
  group : String
  mirror_dir : String
  verbose : Nat
  http : Bool
  dry_run : Bool
  worker_count : Nat
  metric_file : Option String
  junit_report : Option String
  git_executable : String
  private_token : Option String
  refspec : Option (List String)
  remove_workrepo : Bool
deriving DecidableEq, Repr

/-- The engine's option struct (`git_mirror::MirrorOptions`), with exactly
the fields assigned in the `Into<MirrorOptions> for Opt` impl. -/
structure MirrorOptions where
  mirror_dir : String
  dry_run : Bool
  worker_count : Nat
  metrics_file : Option String
  junit_file : Option String
  git_executable : String
  refspec : Option (List String)
  remove_workrepo : Bool
deriving DecidableEq, Repr

/-- `impl Into<MirrorOptions> for Opt` from src/main.rs: field-by-field move. -/
def Opt.into (o : Opt) : MirrorOptions :=
  { mirror_dir := o.mirror_dir
    dry_run := o.dry_run
    worker_count := o.worker_count
    metrics_file := o.metric_file
    junit_file := o.junit_report
    git_executable := o.git_executable
    refspec := o.refspec
    remove_workrepo := o.remove_workrepo }

/-- `crate_name!()` in src/main.rs; the structopt name is "git-mirror". -/
def crate_name : String := "git-mirror"

/-- `crate_version!()` reads Cargo.toml, which is not among the sources; the
theorems below depend only on the presence of the useragent, not this value. -/
def crate_version : String := "0.0.0"

/-- The `GitLab` provider struct exactly as constructed in src/main.rs
(fields `url`, `group`, `use_http`, `private_token`, `recursive`). -/
structure GitLab where
  url : String
  group : String
  use_http : Bool
  private_token : Option String
  recursive : Bool
deriving DecidableEq, Repr

/-- The `GitHub` provider struct exactly as constructed in src/main.rs
(fields `url`, `org`, `use_http`, `private_token`, `useragent`). -/
structure GitHub where
  url : String
  org : String
  use_http : Bool
  private_token : Option String
  useragent : String
deriving DecidableEq, Repr

/-- The trait object `Box<dyn Provider>`: the closed set of backends. -/
inductive Provider
  | gitlab : GitLab → Provider
  | github : GitHub → Provider
deriving DecidableEq, Repr

/-- The `match opt.provider` expression in `main` that constructs the
provider value (src/main.rs lines 141-156). -/
def makeProvider (o : Opt) : Provider :=
  match o.provider with
  | .GitLab =>
      .gitlab
        { url := o.url
          group := o.group
          use_http := o.http
          private_token := o.private_token
          recursive := true }
  | .GitHub =>
      .github
        { url := o.url
          org := o.group
          use_http := o.http
          private_token := o.private_token
          useragent := crate_name ++ "/" ++ crate_version }

/-- The client signature the constructed provider carries, if any: only the
GitHub construction site passes a `useragent`. -/
def Provider.useragentOf : Provider → Option String
  | .gitlab _ => none
  | .github g => some g.useragent

/-- The recursion flag of the constructed provider, if it has one: only the
GitLab struct has a `recursive` field. -/
def Provider.recursiveOf : Provider → Option Bool
  | .gitlab g => some g.recursive
  | .github _ => none

/-- The conditional URL default from the structopt attribute on `Opt::url`
(src/main.rs lines 48-57): `default_value_ifs` keyed on the provider. -/
def defaultUrl : Providers → String
  | .GitLab => "https://gitlab.com"
  | .GitHub => "https://api.github.com"

/-- Resolution of the `--url` argument: the given value when present,
otherwise the provider-dependent default. -/
def resolveUrl (urlArg : Option String) (p : Providers) : String :=
  match urlArg with
  | some u => u
  | none => defaultUrl p

/-! ## Logging (the `log` facade and the `env_logger` setup in `main`) -/

/-- Log levels of the `log` crate, least to most verbose. -/
inductive LogLevel
  | error
  | warn
  | info
  | debug
  | trace
deriving DecidableEq, Repr

/-- Numeric rank of a level (the `log` crate's `Level as usize`, shifted). -/
def LogLevel.toNat : LogLevel → Nat
  | .error => 0
  | .warn => 1
  | .info => 2
  | .debug => 3
  | .trace => 4

/-- Rendering of a level as it appears in the filter string. -/
def LogLevel.render : LogLevel → String
  | .error => "error"
  | .warn => "warn"
  | .info => "info"
  | .debug => "debug"
  | .trace => "trace"

/-- The level selected by `match cmp::min(opt.verbose, 4)` in `main`
(src/main.rs lines 129-136). -/
def filterLevel (verbose : Nat) : LogLevel :=
  match min verbose 4 with
  | 4 => .trace
  | 3 => .debug
  | 2 => .info
  | 1 => .warn
  | _ => .error

/-- The `env_log_level` string bound in `main`: `"git_mirror=" ++ level`. -/
def env_log_level (verbose : Nat) : String :=
  "git_mirror=" ++ (filterLevel verbose).render

/-- State of the `log` facade: `none` while no logger is installed (the
facade's max level is then `Off` and every record is discarded);
`some m` once `env_logger::Builder::init` has installed a logger
filtering at level `m`. -/
def LoggerState : Type := Option LogLevel

/-- One call of a logging macro: the message is emitted only when a logger
is installed and the call's level is enabled by the installed filter. -/
def logCall (st : LoggerState) (lvl : LogLevel) (msg : String) : List String :=
  match st with
  | none => []
  | some m => if lvl.toNat ≤ m.toNat then [msg] else []

/-- `Debug`-style rendering of an `Option String` (`None` / `Some("…")`). -/
def renderOptStr : Option String → String
  | none => "None"
  | some s => "Some(\"" ++ s ++ "\")"

/-- `{:#?}` rendering of the parsed `Opt` struct: the derived `Debug`
output, which includes the private token verbatim when present. -/
def formatOpt (o : Opt) : String :=
  "Opt \x7b provider: " ++ (reprStr o.provider) ++
  ", url: \"" ++ o.url ++
  "\", group: \"" ++ o.group ++
  "\", mirror_dir: \"" ++ o.mirror_dir ++
  "\", verbose: " ++ (toString o.verbose) ++
  ", http: " ++ (toString o.http) ++
  ", dry_run: " ++ (toString o.dry_run) ++
  ", worker_count: " ++ (toString o.worker_count) ++
  ", metric_file: " ++ (renderOptStr o.metric_file) ++
  ", junit_report: " ++ (renderOptStr o.junit_report) ++
  ", git_executable: \"" ++ o.git_executable ++
  "\", private_token: " ++ (renderOptStr o.private_token) ++
  ", remove_workrepo: " ++ (toString o.remove_workrepo) ++ " \x7d"

/-- The messages `main` itself emits, in program order (src/main.rs):
`debug!("\x7b:#?\x7d", opt)` runs BEFORE `env_logger::Builder::init`, i.e.
against the uninstalled facade; afterwards the installed filter is the
`RUST_LOG` environment value when set, else `env_log_level`; finally
either `info!("All done")` or `error!("Error occured: …")` runs against
the installed logger. `engineResult` is `do_mirror`'s result, whose error
display text is produced by the engine crate (not among the sources). -/
def mainEmitted (rustLog : Option LogLevel) (o : Opt)
    (engineResult : Except String Unit) : List String :=
  let preInit : LoggerState := none
  let installed : LoggerState :=
    some (match rustLog with | some m => m | none => filterLevel o.verbose)
  logCall preInit .debug (formatOpt o) ++
    (match engineResult with
     | .ok _ => logCall installed .info "All done"
     | .error e => logCall installed .error ("Error occured: " ++ e))

/-! ## Engine data model (spec §3) -/

/-- Repository Descriptor (spec §3). -/
structure Descriptor where
  namespace_path : List String
  name : String
  ssh_url : String
  http_url : String
deriving DecidableEq, Repr

/-- Worker action (spec §3, Mirror Outcome). -/
inductive Action
  | Cloned
  | Updated
  | Skipped
  | Removed
deriving DecidableEq, Repr

/-- Outcome status (spec §3). -/
inductive Status
  | Success
  | Failed
deriving DecidableEq, Repr

/-- Mirror Outcome (spec §3): one per descriptor per run. -/
structure Outcome where
  descriptor : Descriptor
  action : Action
  status : Status
  err : Option String
  duration : Nat
deriving DecidableEq, Repr

/-- Observable side effects of one worker invocation. -/
inductive Effect
  | invokeTool (argv : List String)
  | createDir (path : String)
  | mutateDir (path : String)
  | removeDir (path : String)
deriving DecidableEq, Repr

/-- The local path of one mirror: `mirror_dir / namespace_path / name`. -/
def localPath (opts : MirrorOptions) (d : Descriptor) : String :=
  String.intercalate "/" (opts.mirror_dir :: (d.namespace_path ++ [d.name]))

/-- Modelled from the spec: the Mirror Worker `sync` (spec §4.2) of the
`git_mirror` crate, which is not among the sources. In dry-run it reports
`Skipped` and stops before any subprocess or filesystem activity; otherwise
it clones (local path absent) or updates (local path present) via the
external tool, reporting `Failed` with the captured diagnostic when the
tool exits non-zero, and removes the local copy after a successful sync
when `remove_workrepo` is set. `localExists`, `toolOk` and `diag` stand
for the worker's environment: whether the local path already exists,
whether the external tool succeeds, and its captured diagnostic output. -/
def sync (opts : MirrorOptions) (d : Descriptor) (localExists : Bool)
    (toolOk : Bool) (diag : String) (duration : Nat) : Outcome × List Effect :=
  let p := localPath opts d
  if opts.dry_run then
    ({ descriptor := d, action := .Skipped, status := .Success,
       err := none, duration := duration }, [])
  else if localExists then
    if toolOk then
      ({ descriptor := d, action := .Updated, status := .Success,
         err := none, duration := duration },
       [.invokeTool [opts.git_executable, "fetch"], .mutateDir p] ++
         (if opts.remove_workrepo then [.removeDir p] else []))
    else
      ({ descriptor := d, action := .Updated, status := .Failed,
         err := some diag, duration := duration },
       [.invokeTool [opts.git_executable, "fetch"]])
  else
    if toolOk then
      ({ descriptor := d, action := .Cloned, status := .Success,
         err := none, duration := duration },
       [.invokeTool [opts.git_executable, "clone"], .createDir p] ++
         (if opts.remove_workrepo then [.removeDir p] else []))
    else
      ({ descriptor := d, action := .Cloned, status := .Failed,
         err := some diag, duration := duration },
       [.invokeTool [opts.git_executable, "clone"]])

/-! ## Engine run, configuration validation and exit status -/

/-- Configuration errors (spec §7). -/
inductive ConfigError
  | invalidWorkerCount
  | missingCredential
deriving DecidableEq, Repr

/-- Modelled from the spec: the engine's semantic precondition validation
(spec §6 and §7, `git_mirror` crate, not among the sources): a positive
`worker_count`, and a credential present when `use_http` is combined with
a provider requiring authentication. -/
def validateConfig (worker_count : Nat) (use_http : Bool)
    (credential : Option String) (requiresAuth : Bool) : Option ConfigError :=
  if worker_count = 0 then some .invalidWorkerCount
  else if use_http && requiresAuth && credential.isNone then
    some .missingCredential
  else none

/-- Externally visible events of one engine run, in order. -/
inductive RunEvent
  | configFailed (e : ConfigError)
  | listingNetwork
  | workerStarted (i : Nat)
deriving DecidableEq, Repr

/-- Modelled from the spec: the event trace of one engine run (spec §2, §6,
§7; `git_mirror::do_mirror`, not among the sources): configuration is
validated first and a violation terminates the run before the listing
network call and before any worker starts. -/
def engineEvents (worker_count : Nat) (use_http : Bool)
    (credential : Option String) (requiresAuth : Bool) : List RunEvent :=
  match validateConfig worker_count use_http credential requiresAuth with
  | some e => [.configFailed e]
  | none => .listingNetwork :: (List.range worker_count).map .workerStarted

/-- Modelled from the spec: the result of `git_mirror::do_mirror` (not among
the sources): `Err` when the listing fails (spec §4.3, fatal) or when one
or more outcomes are `Failed`; `Ok` when the listing succeeded and every
outcome is non-failed (spec §4.3 and §6, exit-status paragraph). -/
def do_mirror (listing : Except String (List Descriptor))
    (outcomeOf : Descriptor → Outcome) : Except String Unit :=
  match listing with
  | .error e => .error e
  | .ok ds =>
      if ds.all (fun d => (outcomeOf d).status = .Success) then .ok ()
      else .error "mirror failed"

/-- The exit status produced by `main` from `do_mirror`'s result
(src/main.rs lines 160-168): fall through to a normal return (status 0)
on `Ok`, `exit(2)` on `Err`. -/
def mainExitCode (r : Except String Unit) : Nat :=
  match r with
  | .ok _ => 0
  | .error _ => 2

/-- A run succeeded (spec §6): the listing succeeded and every outcome is
non-failed. -/
def runSucceeded (listing : Except String (List Descriptor))
    (outcomeOf : Descriptor → Outcome) : Prop :=
  ∃ ds, listing = .ok ds ∧ ∀ d ∈ ds, (outcomeOf d).status = .Success

instance (listing : Except String (List Descriptor))
    (outcomeOf : Descriptor → Outcome) :
    Decidable (runSucceeded listing outcomeOf) := by
  unfold runSucceeded
  match listing with
  | .error e =>
      exact isFalse (by rintro ⟨ds, h, -⟩; cases h)
  | .ok ds =>
      by_cases h : ∀ d ∈ ds, (outcomeOf d).status = .Success
      case pos => exact isTrue ⟨ds, rfl, h⟩
      case neg =>
        exact isFalse (by rintro ⟨ds2, h2, h3⟩; cases h2; exact h h3)

/-! ## GitLab recursive listing (spec §4.1) -/

/-- A GitLab group: its own projects and its descendant subgroups. -/
inductive GroupTree
  | node (projects : List Descriptor) (subgroups : List GroupTree)

mutual

/-- Modelled from the spec: GitLab listing (spec §4.1, `git_mirror` crate,
not among the sources): when `recursive` is set, traverse all descendant
subgroups and aggregate every project beneath them; otherwise only the
immediate group's projects. -/
def listGroup (recursive : Bool) : GroupTree → List Descriptor
  | .node ps subs => ps ++ (if recursive then listGroups recursive subs else [])

def listGroups (recursive : Bool) : List GroupTree → List Descriptor
  | [] => []
  | t :: ts => listGroup recursive t ++ listGroups recursive ts

end

/-- A project lies somewhere beneath a group: among its own projects or
anywhere inside a descendant subgroup. -/
inductive ProjectIn (d : Descriptor) : GroupTree → Prop
  | here {ps subs} : d ∈ ps → ProjectIn d (.node ps subs)
  | deeper {ps subs t} : t ∈ subs → ProjectIn d t → ProjectIn d (.node ps subs)

/-! ## Sample values used by witness theorems -/

/-- A concrete parsed option value (the structopt defaults, GitLab). -/
def sampleOpt : Opt :=
  { provider := .GitLab
    url := "https://gitlab.com"
    group := "the-group"
    mirror_dir := "./mirror-dir"
    verbose := 0
    http := false
    dry_run := false
    worker_count := 1
    metric_file := none
    junit_report := none
    git_executable := "git"
    private_token := none
    refspec := none
    remove_workrepo := false }

/-- A concrete repository descriptor. -/
def sampleDescriptor : Descriptor :=
  { namespace_path := ["team"]
    name := "x"
    ssh_url := "git@host:team/x.git"
    http_url := "https://host/team/x.git" }

/-! ## Claims -/

/-- C8: the `Into<MirrorOptions>` conversion preserves every field
unchanged: `mirror_dir`, `dry_run`, `worker_count`, `metrics_file`
(from `metric_file`), `junit_file` (from `junit_report`),
`git_executable`, `refspec` and `remove_workrepo` all equal the
corresponding input fields. -/
theorem c8_into_preserves_every_field (o : Opt) :
    (Opt.into o).mirror_dir = o.mirror_dir ∧
    (Opt.into o).dry_run = o.dry_run ∧
    (Opt.into o).worker_count = o.worker_count ∧
    (Opt.into o).metrics_file = o.metric_file ∧
    (Opt.into o).junit_file = o.junit_report ∧
    (Opt.into o).git_executable = o.git_executable ∧
    (Opt.into o).refspec = o.refspec ∧
    (Opt.into o).remove_workrepo = o.remove_workrepo :=
  ⟨rfl, rfl, rfl, rfl, rfl, rfl, rfl, rfl⟩

/-- C9: with `--url` absent the API base URL defaults per provider
(`https://gitlab.com` for GitLab, `https://api.github.com` for GitHub);
with `--url` given, that exact value is used for either backend. -/
theorem c9_url_defaults_per_provider (u : String) (p : Providers) :
    resolveUrl none .GitLab = "https://gitlab.com" ∧
    resolveUrl none .GitHub = "https://api.github.com" ∧
    resolveUrl (some u) p = u :=
  ⟨rfl, rfl, rfl⟩

/-- C6: provider selection is a closed set of exactly two variants: every
constructed provider is a GitLab or a GitHub instance, and every value of
the `Providers` argument enum is one of the two variants. -/
theorem c6_two_provider_variants :
    (∀ o : Opt, (∃ g, makeProvider o = .gitlab g) ∨
      (∃ h, makeProvider o = .github h)) ∧
    (∀ p : Providers, p = .GitLab ∨ p = .GitHub) := by
  constructor
  · intro o
    cases h : o.provider
    · exact Or.inl
        ⟨{ url := o.url, group := o.group, use_http := o.http,
           private_token := o.private_token, recursive := true },
         by simp [makeProvider, h]⟩
    · exact Or.inr
        ⟨{ url := o.url, org := o.group, use_http := o.http,
           private_token := o.private_token,
           useragent := crate_name ++ "/" ++ crate_version },
         by simp [makeProvider, h]⟩
  · intro p
    cases p
    · exact Or.inl rfl
    · exact Or.inr rfl

/-- The numeric value of the selected log level equals `min verbose 4`. -/
theorem filterLevel_toNat (v : Nat) : (filterLevel v).toNat = min v 4 := by
  match v with
  | 0 => decide
  | 1 => decide
  | 2 => decide
  | 3 => decide
  | n + 4 =>
      have h : min (n + 4) 4 = 4 := Nat.min_eq_right (by omega)
      simp [filterLevel, h, LogLevel.toNat]

/-- C10: the log-level filter maps 0 ↦ error, 1 ↦ warn, 2 ↦ info,
3 ↦ debug, every count ≥ 4 ↦ trace, and is monotone (saturating), so
increasing verbosity never decreases the selected level. -/
theorem c10_verbosity_monotone_saturating :
    filterLevel 0 = .error ∧
    filterLevel 1 = .warn ∧
    filterLevel 2 = .info ∧
    filterLevel 3 = .debug ∧
    (∀ v, 4 ≤ v → filterLevel v = .trace) ∧
    (∀ a b, a ≤ b → (filterLevel a).toNat ≤ (filterLevel b).toNat) := by
  refine ⟨rfl, rfl, rfl, rfl, ?_, ?_⟩
  · intro v hv
    have h : min v 4 = 4 := Nat.min_eq_right hv
    simp [filterLevel, h]
  · intro a b hab
    rw [filterLevel_toNat, filterLevel_toNat]
    exact min_le_min hab (le_refl 4)

/-- Witness for C10 at concrete inputs. -/
theorem c10_witness :
    filterLevel 7 = .trace ∧ (filterLevel 2).toNat ≤ (filterLevel 5).toNat :=
  ⟨c10_verbosity_monotone_saturating.2.2.2.2.1 7 (by omega),
   c10_verbosity_monotone_saturating.2.2.2.2.2 2 5 (by omega)⟩

/-- C4 counterexample: a run selecting the GitLab backend constructs a
provider that carries no useragent, refuting "both provider variants carry
an identifying client signature". -/
theorem c4_counterexample :
    sampleOpt.provider = .GitLab ∧
    (makeProvider sampleOpt).useragentOf = none :=
  ⟨rfl, rfl⟩

/-- C4 amended: only the GitHub variant is constructed with a client
name/version signature (`crate_name/crate_version`); the GitLab variant is
constructed without one. -/
theorem c4_amended_only_github_has_useragent (o : Opt) :
    (makeProvider o).useragentOf =
      (match o.provider with
       | .GitHub => some (crate_name ++ "/" ++ crate_version)
       | .GitLab => none) := by
  cases h : o.provider <;>
    simp [makeProvider, Provider.useragentOf, h]

/-- C1: the private token never appears in any log output of the CLI: the
emitted log messages are identical for any two token values (the only
logging call whose message embeds the token, `debug!` of the full `Opt`,
runs before `env_logger` installs a logger, so its record is discarded by
the `log` facade). -/
theorem c1_token_never_in_log_output (rustLog : Option LogLevel) (o : Opt)
    (t1 t2 : Option String) (r : Except String Unit) :
    mainEmitted rustLog { o with private_token := t1 } r =
    mainEmitted rustLog { o with private_token := t2 } r := by
  cases r <;> simp [mainEmitted, logCall]

/-- A successful sync of every listed repository makes `do_mirror` return `Ok`. -/
theorem do_mirror_ok (ds : List Descriptor) (f : Descriptor → Outcome)
    (h : ∀ d ∈ ds, (f d).status = .Success) :
    do_mirror (.ok ds) f = .ok () := by
  simp [do_mirror, List.all_eq_true]
  exact h

/-- A failed outcome among the listed repositories makes `do_mirror` return `Err`. -/
theorem do_mirror_err (ds : List Descriptor) (f : Descriptor → Outcome)
    (h : ¬ ∀ d ∈ ds, (f d).status = .Success) :
    do_mirror (.ok ds) f = .error "mirror failed" := by
  simp [do_mirror, List.all_eq_true, h]

/-- C2: the process exit status is zero iff the run succeeded (listing
succeeded and every outcome is non-failed); a non-zero exit status is
always the code's value 2. -/
theorem c2_exit_zero_iff_success (listing : Except String (List Descriptor))
    (outcomeOf : Descriptor → Outcome) :
    (mainExitCode (do_mirror listing outcomeOf) = 0 ↔
      runSucceeded listing outcomeOf) ∧
    (mainExitCode (do_mirror listing outcomeOf) ≠ 0 →
      mainExitCode (do_mirror listing outcomeOf) = 2) := by
  cases listing with
  | error e =>
      constructor
      · simp [do_mirror, mainExitCode, runSucceeded]
      · intro _
        rfl
  | ok ds =>
      by_cases h : ∀ d ∈ ds, (outcomeOf d).status = .Success
      · rw [do_mirror_ok ds outcomeOf h]
        constructor
        · exact iff_of_true rfl ⟨ds, rfl, h⟩
        · intro hne
          exact absurd rfl hne
      · rw [do_mirror_err ds outcomeOf h]
        constructor
        · apply iff_of_false
          · simp [mainExitCode]
          · rintro ⟨ds2, h2, h3⟩
            injection h2 with h2
            subst h2
            exact h h3
        · intro _
          rfl

/-- Witness for C2 at a concrete failing listing. -/
theorem c2_witness :
    mainExitCode (do_mirror (Except.error "listing failed")
      (fun d => { descriptor := d, action := .Skipped, status := .Success,
                  err := none, duration := 0 })) = 2 :=
  (c2_exit_zero_iff_success (Except.error "listing failed")
      (fun d => { descriptor := d, action := .Skipped, status := .Success,
                  err := none, duration := 0 })).2 (by decide)

/-- C3: a semantic configuration violation (`worker_count = 0`, or
`use_http` with a missing required credential) terminates the run with a
`ConfigError` before the listing network call and before any worker
starts. -/
theorem c3_config_error_fails_fast (wc : Nat) (uh : Bool)
    (cred : Option String) (ra : Bool)
    (h : wc = 0 ∨ (uh = true ∧ ra = true ∧ cred = none)) :
    (∃ e, engineEvents wc uh cred ra = [.configFailed e]) ∧
    RunEvent.listingNetwork ∉ engineEvents wc uh cred ra ∧
    (∀ i, RunEvent.workerStarted i ∉ engineEvents wc uh cred ra) := by
  have hv : ∃ e, validateConfig wc uh cred ra = some e := by
    rcases h with h0 | ⟨h1, h2, h3⟩
    · exact ⟨.invalidWorkerCount, by simp [validateConfig, h0]⟩
    · by_cases h0 : wc = 0
      · exact ⟨.invalidWorkerCount, by simp [validateConfig, h0]⟩
      · exact ⟨.missingCredential, by simp [validateConfig, h0, h1, h2, h3]⟩
  obtain ⟨e, he⟩ := hv
  refine ⟨⟨e, ?_⟩, ?_, ?_⟩
  · simp [engineEvents, he]
  · simp [engineEvents, he]
  · intro i
    simp [engineEvents, he]

/-- Witness for C3 at the concrete input `worker_count = 0`. -/
theorem c3_witness :
    RunEvent.listingNetwork ∉ engineEvents 0 false none false ∧
    RunEvent.workerStarted 1 ∉ engineEvents 0 false none false :=
  ⟨(c3_config_error_fails_fast 0 false none false (Or.inl rfl)).2.1,
   (c3_config_error_fails_fast 0 false none false (Or.inl rfl)).2.2 1⟩

/-- A project listed from a member of a list of subgroups is listed from
the whole list. -/
theorem mem_listGroups_of_mem {r : Bool} {t : GroupTree} {ts : List GroupTree}
    {d : Descriptor} (ht : t ∈ ts) (hd : d ∈ listGroup r t) :
    d ∈ listGroups r ts := by
  induction ts with
  | nil => cases ht
  | cons a as ih =>
      simp only [listGroups]
      rcases List.mem_cons.mp ht with h | h
      · subst h
        exact List.mem_append_left _ hd
      · exact List.mem_append_right _ (ih h)

/-- Recursive listing reaches every project beneath the group. -/
theorem projectIn_mem_listGroup {d : Descriptor} {t : GroupTree}
    (h : ProjectIn d t) : d ∈ listGroup true t := by
  induction h with
  | here hp =>
      simp [listGroup]
      exact Or.inl hp
  | deeper hts hpt ih =>
      simp [listGroup]
      exact Or.inr (mem_listGroups_of_mem hts ih)

/-- C5: a run selecting the GitLab backend constructs the provider with
`recursive = true`, and recursive listing aggregates every project beneath
the group, including those of all descendant subgroups. -/
theorem c5_gitlab_recursive_listing (o : Opt) (h : o.provider = .GitLab) :
    (makeProvider o).recursiveOf = some true ∧
    (∀ (d : Descriptor) (t : GroupTree), ProjectIn d t →
      d ∈ listGroup true t) := by
  constructor
  · simp [makeProvider, h, Provider.recursiveOf]
  · intro d t hp
    exact projectIn_mem_listGroup hp

/-- A concrete group tree: one empty parent group with one subgroup
holding one project. -/
def sampleTree : GroupTree := .node [] [.node [sampleDescriptor] []]

/-- Witness for C5: the GitLab-selecting sample options, and a project
inside a subgroup of the sample tree. -/
theorem c5_witness :
    (makeProvider sampleOpt).recursiveOf = some true ∧
    sampleDescriptor ∈ listGroup true sampleTree :=
  have hc := c5_gitlab_recursive_listing sampleOpt rfl
  ⟨hc.1, hc.2 sampleDescriptor sampleTree
    (ProjectIn.deeper (List.mem_singleton.mpr rfl)
      (ProjectIn.here (List.mem_singleton.mpr rfl)))⟩

/-- C7: with `--dry-run` set, the CLI passes `dry_run` through unchanged,
and every worker outcome has action `Skipped` while the worker performs no
effect at all: no tool invocation, no directory creation or mutation. -/
theorem c7_dry_run_invariant (o : Opt) (d : Descriptor)
    (localExists toolOk : Bool) (diag : String) (dur : Nat)
    (h : o.dry_run = true) :
    (Opt.into o).dry_run = o.dry_run ∧
    (sync (Opt.into o) d localExists toolOk diag dur).1.action = .Skipped ∧
    (sync (Opt.into o) d localExists toolOk diag dur).2 = [] := by
  have h2 : (Opt.into o).dry_run = true := h
  exact ⟨rfl, by simp [sync, h2], by simp [sync, h2]⟩

/-- Witness for C7 at concrete dry-run options and a concrete descriptor. -/
theorem c7_witness :
    (Opt.into { sampleOpt with dry_run := true }).dry_run =
      ({ sampleOpt with dry_run := true } : Opt).dry_run ∧
    (sync (Opt.into { sampleOpt with dry_run := true }) sampleDescriptor
      false true "fatal: diagnostic" 5).1.action = .Skipped ∧
    (sync (Opt.into { sampleOpt with dry_run := true }) sampleDescriptor
      false true "fatal: diagnostic" 5).2 = [] :=
  c7_dry_run_invariant { sampleOpt with dry_run := true } sampleDescriptor
    false true "fatal: diagnostic" 5 rfl

end GitMirror
